import Mathlib

/-!
Formal model of the GrindLink application: the Express/Firestore/socket.io
server (`index.js`) and the React client (`src/App.tsx`).

Modelling conventions:
* A JavaScript `Date` value is an integer count of milliseconds since the Unix
  epoch (`some ms`), or the Invalid Date (`none`).  `new Date(string)` is an
  environment parameter (`ServerEnv.parseDate`), since JS date-string parsing
  is a host facility; `new Date()` is `ServerEnv.now`.  Calling `toISOString`
  on an Invalid Date throws in JS; the model routes that through the
  surrounding `try/catch` explicitly.
* The Firestore document store is the external collaborator of the spec: a
  collection is a list of `(id, document)` pairs, `add` appends a document
  under a fresh id (`ServerEnv.newId`) and may fail (`ServerEnv.addOk`),
  `orderBy('created_at', 'desc').get()` is a stable merge sort, descending on
  `created_at`, and may fail (the `readOk` argument of the GET handlers).
* Handlers are pure functions from the initialization flag (`db` truthiness),
  environment, store contents and request payload to an `ApiResult`: HTTP
  status, response body, resulting store contents, and the list of socket.io
  events emitted during the request.
* Request payloads use `Option` for absent JSON fields; JS falsiness of the
  present values (`0`, `""`) is checked separately, as in the source.
-/

/-! ### JS `Date.prototype.toISOString` -/

/-- Character for a single decimal digit (`0 ≤ n ≤ 9`). -/
def digitChar (n : Nat) : Char := Char.ofNat (48 + n)

/-- Two-digit zero-padded decimal rendering of an in-range component. -/
def pad2 (n : Nat) : List Char := [digitChar (n / 10 % 10), digitChar (n % 10)]

/-- Three-digit zero-padded decimal rendering (milliseconds). -/
def pad3 (n : Nat) : List Char :=
  [digitChar (n / 100 % 10), digitChar (n / 10 % 10), digitChar (n % 10)]

/-- Four-digit zero-padded decimal rendering (years 0–9999). -/
def pad4 (n : Nat) : List Char :=
  [digitChar (n / 1000 % 10), digitChar (n / 100 % 10), digitChar (n / 10 % 10),
   digitChar (n % 10)]

/-- Six-digit zero-padded decimal rendering (expanded-format years). -/
def pad6 (n : Nat) : List Char :=
  [digitChar (n / 100000 % 10), digitChar (n / 10000 % 10), digitChar (n / 1000 % 10),
   digitChar (n / 100 % 10), digitChar (n / 10 % 10), digitChar (n % 10)]

/-- Proleptic-Gregorian `(year, month, day)` of a day count since 1970-01-01,
decomposed era / century / four-year pack / year, with the month/day-of-month
split of the March-based day-of-year. -/
def civilFromDays (days : Int) : Int × Nat × Nat :=
  let z : Int := days + 719468
  let era : Int := z.ediv 146097
  let doe : Nat := (z.emod 146097).toNat
  let c : Nat := if doe / 36524 < 3 then doe / 36524 else 3
  let r1 : Nat := doe - 36524 * c
  let p : Nat := r1 / 1461
  let r2 : Nat := r1 % 1461
  let y1 : Nat := if r2 / 365 < 3 then r2 / 365 else 3
  let doy : Nat := r2 - 365 * y1
  let yoe : Nat := 100 * c + 4 * p + y1
  let mp : Nat := (5 * doy + 2) / 153
  let d : Nat := doy - (153 * mp + 2) / 5 + 1
  let m : Nat := if mp < 10 then mp + 3 else mp - 9
  let y : Int := (yoe : Int) + era * 400 + (if m ≤ 2 then 1 else 0)
  (y, m, d)

/-- Year rendering of `toISOString`: plain four digits for 0–9999, otherwise
the six-digit expanded format with an explicit sign. -/
def yearChars (y : Int) : List Char :=
  if 0 ≤ y ∧ y < 10000 then pad4 y.toNat
  else if y < 0 then '-' :: pad6 y.natAbs
  else '+' :: pad6 y.toNat

/-- `Date.prototype.toISOString` on a valid time value (milliseconds since the
epoch): `YYYY-MM-DDTHH:MM:SS.mmmZ`, UTC. -/
def toISOString (ms : Int) : String :=
  let ymd := civilFromDays (ms.ediv 86400000)
  String.mk (yearChars ymd.1 ++ '-' :: pad2 ymd.2.1 ++ '-' :: pad2 ymd.2.2 ++
    'T' :: pad2 ((ms.ediv 3600000).emod 24).toNat ++
    ':' :: pad2 ((ms.ediv 60000).emod 60).toNat ++
    ':' :: pad2 ((ms.ediv 1000).emod 60).toNat ++
    '.' :: pad3 (ms.emod 1000).toNat ++ ['Z'])

/-- Decimal-digit test. -/
def isDigitCh (c : Char) : Bool := 48 ≤ c.toNat && c.toNat ≤ 57

/-- Match a character list against a format: `D` stands for a decimal digit,
every other format character stands for itself. -/
def matchesFormat : List Char → List Char → Bool
  | [], [] => true
  | f :: fs, c :: cs => (if f = 'D' then isDigitCh c else f = c) && matchesFormat fs cs
  | _, _ => false

/-- Shape of a basic ISO-8601 UTC date-time with millisecond precision. -/
def basicIsoFormat : List Char :=
  ['D','D','D','D','-','D','D','-','D','D','T','D','D',':','D','D',':','D','D','.','D','D','D','Z']

/-- Shape of the expanded-year variant (six year digits after a sign). -/
def expandedIsoFormat : List Char :=
  ['D','D','D','D','D','D','-','D','D','-','D','D','T','D','D',':','D','D',':','D','D','.','D','D','D','Z']

/-- An ISO-8601 UTC date-time string as produced by JS `toISOString`:
either the basic shape, or a sign followed by the expanded-year shape. -/
def isIso8601 (s : String) : Bool :=
  matchesFormat basicIsoFormat s.data ||
  (match s.data with
   | c :: rest => (c = '+' || c = '-') && matchesFormat expandedIsoFormat rest
   | [] => false)

/-! ### Client-side skills input handling (`src/App.tsx`, line 233) -/

/-- JS `String.prototype.split(',')` on the character list: splits at every
comma, keeping empty pieces (so `""` yields `[[]]`). -/
def splitCommaChars : List Char → List (List Char)
  | [] => [[]]
  | c :: cs =>
    if c = ',' then [] :: splitCommaChars cs
    else
      match splitCommaChars cs with
      | t :: ts => (c :: t) :: ts
      | [] => [[c]]

/-- JS `String.prototype.split(',')`. -/
def jsSplitComma (s : String) : List String := (splitCommaChars s.data).map String.mk

/-- Whitespace characters removed by JS `String.prototype.trim`
(the ASCII portion; the source never feeds it non-ASCII whitespace). -/
def isJsSpace (c : Char) : Bool :=
  c = ' ' || c = '\t' || c = '\n' || c = '\r' || c = '\x0b' || c = '\x0c'

/-- JS `String.prototype.trim`: strip whitespace from both ends. -/
def jsTrim (s : String) : String :=
  String.mk (((s.data.dropWhile isJsSpace).reverse.dropWhile isJsSpace).reverse)

/-- `skills.split(',').map(s => s.trim())` from `UserProfileForm.handleSubmit`. -/
def skillsFromInput (input : String) : List String := (jsSplitComma input).map jsTrim

/-! ### Server data model (`index.js`) -/

/-- JSON body of `POST /api/assignments`; `none` marks an absent field. -/
structure AssignmentPayload where
  gig_id : Option Int
  assignee_id : Option Int
  due_date : Option String
  status : Option String
deriving Repr, DecidableEq

/-- JSON body of `POST /api/users`; `none` marks an absent field. -/
structure UserPayload where
  username : Option String
  bio : Option String
  skills : Option (List String)
deriving Repr, DecidableEq

/-- Assignment document as written to the `assignments` collection:
`due_date` is the JS `Date` produced by `new Date(due_date)` (possibly the
Invalid Date, `none`), `created_at` the server clock at creation. -/
structure StoredAssignment where
  gig_id : Int
  assignee_id : Int
  due_date : Option Int
  status : String
  created_at : Int
deriving Repr, DecidableEq

/-- User document as written to the `users` collection. -/
structure StoredUser where
  username : String
  bio : String
  skills : List String
  created_at : Int
deriving Repr, DecidableEq

/-- Assignment JSON object as broadcast on `new_assignment` and as returned by
both assignment endpoints: dates rendered as ISO-8601 strings. -/
structure AssignmentRecord where
  id : String
  gig_id : Int
  assignee_id : Int
  due_date : String
  status : String
  created_at : String
deriving Repr, DecidableEq

/-- User JSON object as broadcast on `new_user` and returned by the user
endpoints. -/
structure UserRecord where
  id : String
  username : String
  bio : String
  skills : List String
  created_at : String
deriving Repr, DecidableEq

/-- Host environment of one request: JS date-string parsing, the server clock,
the id Firestore assigns to an added document, and whether the store write
succeeds. -/
structure ServerEnv where
  parseDate : String → Option Int
  now : Int
  newId : String
  addOk : Bool

/-- Response body of an API handler. -/
inductive ApiBody (R : Type) where
  | created (message : String) (record : R)
  | records (l : List R)
  | failure (error : String)
deriving Repr, DecidableEq

/-- Complete observable outcome of one request: HTTP status, response body,
resulting store contents, and socket.io events emitted. -/
structure ApiResult (R S : Type) where
  status : Nat
  body : ApiBody R
  store : List (String × S)
  events : List R
deriving Repr, DecidableEq

/-- JS falsiness of an optional integer field (`undefined` or `0`). -/
def intFalsy : Option Int → Bool
  | none => true
  | some n => n == 0

/-- JS falsiness of an optional string field (`undefined` or `""`). -/
def strFalsy : Option String → Bool
  | none => true
  | some s => s == ""

/-- `POST /api/assignments` (`index.js` lines 47–68).  The final catch-all arm
repeats the 400 response; it is unreachable because the falsiness guard
already rejects every payload with an absent field. -/
def postAssignments (dbInit : Bool) (env : ServerEnv)
    (store : List (String × StoredAssignment)) (p : AssignmentPayload) :
    ApiResult AssignmentRecord StoredAssignment :=
  if dbInit = false then ⟨500, .failure "Database not initialized.", store, []⟩
  else if intFalsy p.gig_id || intFalsy p.assignee_id ||
      strFalsy p.due_date || strFalsy p.status then
    ⟨400, .failure "Missing required fields.", store, []⟩
  else
    match p.gig_id, p.assignee_id, p.due_date, p.status with
    | some g, some a, some dd, some st =>
      let newAssignment : StoredAssignment := ⟨g, a, env.parseDate dd, st, env.now⟩
      if env.addOk then
        let store2 := store ++ [(env.newId, newAssignment)]
        match env.parseDate dd with
        | some dms =>
          let createdAssignment : AssignmentRecord :=
            ⟨env.newId, g, a, toISOString dms, st, toISOString env.now⟩
          ⟨201, .created "Assignment added successfully" createdAssignment, store2,
            [createdAssignment]⟩
        | none => ⟨500, .failure "Internal server error.", store2, []⟩
      else ⟨500, .failure "Internal server error.", store, []⟩
    | _, _, _, _ => ⟨400, .failure "Missing required fields.", store, []⟩

/-- List-path serialization of one assignment document
(`id, ...doc.data(), due_date: ....toISOString(), created_at: ....toISOString()`);
`none` when `toISOString` throws on an invalid stored date. -/
def assignmentDocToJson (doc : String × StoredAssignment) : Option AssignmentRecord :=
  match doc.2.due_date with
  | some dms =>
    some ⟨doc.1, doc.2.gig_id, doc.2.assignee_id, toISOString dms, doc.2.status,
      toISOString doc.2.created_at⟩
  | none => none

/-- Map a fallible serialization over a list, failing (throwing) if any
element fails. -/
def mapOpt (f : α → Option β) : List α → Option (List β)
  | [] => some []
  | x :: xs =>
    match f x, mapOpt f xs with
    | some y, some ys => some (y :: ys)
    | _, _ => none

/-- Descending `created_at` comparison used by `orderBy('created_at', 'desc')`. -/
def createdDescA (x y : String × StoredAssignment) : Bool :=
  y.2.created_at ≤ x.2.created_at

/-- `GET /api/assignments` (`index.js` lines 70–83). -/
def getAssignments (dbInit : Bool) (readOk : Bool)
    (store : List (String × StoredAssignment)) :
    ApiResult AssignmentRecord StoredAssignment :=
  if dbInit = false then ⟨500, .failure "Database not initialized.", store, []⟩
  else if readOk = false then ⟨500, .failure "Internal server error.", store, []⟩
  else
    match mapOpt assignmentDocToJson (store.mergeSort createdDescA) with
    | some assignments => ⟨200, .records assignments, store, []⟩
    | none => ⟨500, .failure "Internal server error.", store, []⟩

/-- `POST /api/users` (`index.js` lines 85–100); `bio || ''` and
`skills || []` default the optional fields. -/
def postUsers (dbInit : Bool) (env : ServerEnv)
    (store : List (String × StoredUser)) (p : UserPayload) :
    ApiResult UserRecord StoredUser :=
  if dbInit = false then ⟨500, .failure "Database not initialized.", store, []⟩
  else if strFalsy p.username then
    ⟨400, .failure "Username is a required field.", store, []⟩
  else
    match p.username with
    | some uname =>
      let newUser : StoredUser := ⟨uname, p.bio.getD "", p.skills.getD [], env.now⟩
      if env.addOk then
        let store2 := store ++ [(env.newId, newUser)]
        let createdUser : UserRecord :=
          ⟨env.newId, uname, newUser.bio, newUser.skills, toISOString env.now⟩
        ⟨201, .created "User profile created successfully" createdUser, store2,
          [createdUser]⟩
      else ⟨500, .failure "Internal server error.", store, []⟩
    | none => ⟨400, .failure "Username is a required field.", store, []⟩

/-- List-path serialization of one user document. -/
def userDocToJson (doc : String × StoredUser) : UserRecord :=
  ⟨doc.1, doc.2.username, doc.2.bio, doc.2.skills, toISOString doc.2.created_at⟩

/-- Descending `created_at` comparison for user documents. -/
def createdDescU (x y : String × StoredUser) : Bool :=
  y.2.created_at ≤ x.2.created_at

/-- `GET /api/users` (`index.js` lines 102–115). -/
def getUsers (dbInit : Bool) (readOk : Bool) (store : List (String × StoredUser)) :
    ApiResult UserRecord StoredUser :=
  if dbInit = false then ⟨500, .failure "Database not initialized.", store, []⟩
  else if readOk = false then ⟨500, .failure "Internal server error.", store, []⟩
  else ⟨200, .records ((store.mergeSort createdDescU).map userDocToJson), store, []⟩

/-- A stored assignment document whose `due_date` both serialization paths can
render (a valid stored date). -/
def assignmentDocOk (doc : String × StoredAssignment) : Bool :=
  doc.2.due_date.isSome

/-! ### Client list views (`src/App.tsx`, `AssignmentsList` / `UserProfilesList`) -/

/-- State of a list view component: the displayed sequence, the loading flag,
and the fetch error message. -/
structure ListViewState (α : Type) where
  records : List α
  loading : Bool
  error : Option String
deriving Repr, DecidableEq

/-- State after a successful initial fetch (`setXs(data)`, `setLoading(false)`). -/
def onFetchSuccess (st : ListViewState α) (data : List α) : ListViewState α :=
  ⟨data, false, st.error⟩

/-- State after a failed initial fetch. -/
def onFetchFailure (st : ListViewState α) (msg : String) : ListViewState α :=
  ⟨st.records, false, some msg⟩

/-- Socket event handler of both list views
(`setXs(current => [newRecord, ...current])`, lines 170–172 and 327–329). -/
def onBroadcast (st : ListViewState α) (r : α) : ListViewState α :=
  ⟨r :: st.records, st.loading, st.error⟩

/-! ### Client form views (`src/App.tsx`, `AssignmentForm` / `UserProfileForm`) -/

/-- State of the assignment form: the four input fields and the submission
outcome state. -/
structure AssignmentFormState where
  gigId : String
  assigneeId : String
  dueDate : String
  status : String
  loading : Bool
  successMessage : Option String
  error : Option String
deriving Repr, DecidableEq

/-- State of the user-profile form. -/
structure UserFormState where
  username : String
  bio : String
  skills : String
  loading : Bool
  successMessage : Option String
  error : Option String
deriving Repr, DecidableEq

/-- Outcome of the `fetch` call a form submission performs. -/
inductive FetchOutcome where
  | ok
  | httpError (serverError : Option String)
  | networkError (message : String)
deriving Repr, DecidableEq

/-- `AssignmentForm.handleSubmit` (lines 38–78): clear both outcome messages,
client-side required-field check (no network call on failure), then the fetch
outcome: reset fields on success, keep them and set the error otherwise. -/
def assignmentFormSubmit (st : AssignmentFormState) (r : FetchOutcome) :
    AssignmentFormState :=
  let st1 := { st with loading := true, error := none, successMessage := none }
  if st1.gigId == "" || st1.assigneeId == "" || st1.dueDate == "" || st1.status == "" then
    { st1 with error := some "Please fill in all fields.", loading := false }
  else
    match r with
    | .ok =>
      { st1 with successMessage := some "Assignment created successfully!", gigId := "", assigneeId := "", dueDate := "", status := "in_progress", loading := false }
    | .httpError me =>
      { st1 with error := some (me.getD "Failed to add assignment."), loading := false }
    | .networkError m => { st1 with error := some m, loading := false }

/-- `UserProfileForm.handleSubmit` (lines 214–252). -/
def userFormSubmit (st : UserFormState) (r : FetchOutcome) : UserFormState :=
  let st1 := { st with loading := true, error := none, successMessage := none }
  if st1.username == "" then
    { st1 with error := some "Username is required.", loading := false }
  else
    match r with
    | .ok =>
      { st1 with successMessage := some "User profile created successfully!", username := "", bio := "", skills := "", loading := false }
    | .httpError me =>
      { st1 with error := some (me.getD "Failed to create user profile."), loading := false }
    | .networkError m => { st1 with error := some m, loading := false }

/-! ### Helper lemmas -/

theorem isDigitCh_digitChar_mod (n : Nat) : isDigitCh (digitChar (n % 10)) = true := by
  have h : n % 10 < 10 := Nat.mod_lt _ (by norm_num)
  set k := n % 10 with hk
  interval_cases k <;> decide

/-- Every rendering produced by `toISOString` has the ISO-8601 shape. -/
theorem isIso8601_toISOString (ms : Int) : isIso8601 (toISOString ms) = true := by
  unfold toISOString
  unfold yearChars
  dsimp only
  split
  · simp [isIso8601, basicIsoFormat, pad4, pad2, pad3, matchesFormat,
      isDigitCh_digitChar_mod]
  · split
    · simp [isIso8601, expandedIsoFormat, pad6, pad2, pad3, matchesFormat,
        isDigitCh_digitChar_mod]
    · simp [isIso8601, expandedIsoFormat, pad6, pad2, pad3, matchesFormat,
        isDigitCh_digitChar_mod]

/-- Successful `POST /api/assignments`: full characterization of the outcome. -/
theorem postAssignments_success (env : ServerEnv)
    (store : List (String × StoredAssignment)) (g a : Int) (dd st : String) (dms : Int)
    (hg : g ≠ 0) (ha : a ≠ 0) (hdd : dd ≠ "") (hst : st ≠ "")
    (hparse : env.parseDate dd = some dms) (hok : env.addOk = true) :
    postAssignments true env store ⟨some g, some a, some dd, some st⟩ =
      ⟨201,
       .created "Assignment added successfully"
         ⟨env.newId, g, a, toISOString dms, st, toISOString env.now⟩,
       store ++ [(env.newId, ⟨g, a, some dms, st, env.now⟩)],
       [⟨env.newId, g, a, toISOString dms, st, toISOString env.now⟩]⟩ := by
  simp [postAssignments, intFalsy, strFalsy, hg, ha, hdd, hst, hparse, hok]

/-- Successful `POST /api/users`: full characterization of the outcome. -/
theorem postUsers_success (env : ServerEnv) (store : List (String × StoredUser))
    (uname : String) (obio : Option String) (oskills : Option (List String))
    (hu : uname ≠ "") (hok : env.addOk = true) :
    postUsers true env store ⟨some uname, obio, oskills⟩ =
      ⟨201,
       .created "User profile created successfully"
         ⟨env.newId, uname, obio.getD "", oskills.getD [], toISOString env.now⟩,
       store ++ [(env.newId, ⟨uname, obio.getD "", oskills.getD [], env.now⟩)],
       [⟨env.newId, uname, obio.getD "", oskills.getD [], toISOString env.now⟩]⟩ := by
  simp [postUsers, strFalsy, hu, hok]

/-- Every event the assignment handler ever emits corresponds to a document
present in the store the handler leaves behind. -/
theorem postAssignments_events_durable (dbInit : Bool) (env : ServerEnv)
    (store : List (String × StoredAssignment)) (p : AssignmentPayload)
    {e : AssignmentRecord} (he : e ∈ (postAssignments dbInit env store p).events) :
    ∃ doc, doc ∈ (postAssignments dbInit env store p).store ∧
      assignmentDocToJson doc = some e := by
  cases dbInit with
  | false => simp [postAssignments] at he
  | true =>
    obtain ⟨og, oa, odd, ost⟩ := p
    by_cases hguard :
        (intFalsy og || intFalsy oa || strFalsy odd || strFalsy ost) = true
    · simp [postAssignments, hguard] at he
    · cases og with
      | none => simp [intFalsy] at hguard
      | some g =>
        cases oa with
        | none => simp [intFalsy] at hguard
        | some a =>
          cases odd with
          | none => simp [strFalsy] at hguard
          | some dd =>
            cases ost with
            | none => simp [strFalsy] at hguard
            | some st =>
              cases hok : env.addOk with
              | false => simp [postAssignments, hguard, hok] at he
              | true =>
                cases hpd : env.parseDate dd with
                | none => simp [postAssignments, hguard, hok, hpd] at he
                | some dms =>
                  simp [postAssignments, hguard, hok, hpd] at he
                  refine ⟨(env.newId, ⟨g, a, some dms, st, env.now⟩), ?_, ?_⟩
                  · simp [postAssignments, hguard, hok, hpd]
                  · simp [assignmentDocToJson, he]

/-- Every event the user handler ever emits corresponds to a document present
in the store the handler leaves behind. -/
theorem postUsers_events_durable (dbInit : Bool) (env : ServerEnv)
    (store : List (String × StoredUser)) (p : UserPayload)
    {e : UserRecord} (he : e ∈ (postUsers dbInit env store p).events) :
    ∃ doc, doc ∈ (postUsers dbInit env store p).store ∧ userDocToJson doc = e := by
  cases dbInit with
  | false => simp [postUsers] at he
  | true =>
    obtain ⟨ou, ob, osk⟩ := p
    by_cases hguard : strFalsy ou = true
    · simp [postUsers, hguard] at he
    · cases ou with
      | none => simp [strFalsy] at hguard
      | some uname =>
        cases hok : env.addOk with
        | false => simp [postUsers, hguard, hok] at he
        | true =>
          simp [postUsers, hguard, hok] at he
          refine ⟨(env.newId, ⟨uname, ob.getD "", osk.getD [], env.now⟩), ?_, ?_⟩
          · simp [postUsers, hguard, hok]
          · simp [userDocToJson, he]

/-- A fallible map succeeds when it succeeds element-wise. -/
theorem mapOpt_eq_some_of_forall {α β : Type} {f : α → Option β} (l : List α)
    (h : ∀ x ∈ l, (f x).isSome = true) : ∃ ys, mapOpt f l = some ys := by
  induction l with
  | nil => exact ⟨[], rfl⟩
  | cons x xs ih =>
    obtain ⟨ys, hys⟩ := ih (fun y hy => h y (List.mem_cons_of_mem _ hy))
    obtain ⟨y, hy⟩ := Option.isSome_iff_exists.mp (h x (List.mem_cons_self _ _))
    exact ⟨y :: ys, by simp [mapOpt, hy, hys]⟩

/-- A successful fallible map contains the image of every list element. -/
theorem mapOpt_mem {α β : Type} {f : α → Option β} (l : List α) :
    ∀ {ys : List β}, mapOpt f l = some ys →
      ∀ {x : α}, x ∈ l → ∀ {y : β}, f x = some y → y ∈ ys := by
  induction l with
  | nil => intro ys hm x hx; simp at hx
  | cons z zs ih =>
    intro ys hm x hx y hy
    simp only [mapOpt] at hm
    cases hfz : f z with
    | none => rw [hfz] at hm; simp at hm
    | some w =>
      cases hzs : mapOpt f zs with
      | none => rw [hfz, hzs] at hm; simp at hm
      | some ws =>
        rw [hfz, hzs] at hm
        simp at hm
        rcases List.mem_cons.mp hx with rfl | hx2
        · rw [hy] at hfz
          cases hfz
          rw [← hm]
          exact List.mem_cons_self _ _
        · rw [← hm]
          exact List.mem_cons_of_mem _ (ih hzs hx2 hy)

theorem createdDescA_trans (x y z : String × StoredAssignment)
    (h1 : createdDescA x y = true) (h2 : createdDescA y z = true) :
    createdDescA x z = true := by
  simp [createdDescA] at h1 h2 ⊢
  omega

theorem createdDescA_total (x y : String × StoredAssignment) :
    (createdDescA x y || createdDescA y x) = true := by
  simp [createdDescA]
  omega

theorem createdDescU_trans (x y z : String × StoredUser)
    (h1 : createdDescU x y = true) (h2 : createdDescU y z = true) :
    createdDescU x z = true := by
  simp [createdDescU] at h1 h2 ⊢
  omega

theorem createdDescU_total (x y : String × StoredUser) :
    (createdDescU x y || createdDescU y x) = true := by
  simp [createdDescU]
  omega

/-- A document with a valid stored date serializes on the list path. -/
theorem assignmentDocToJson_isSome (doc : String × StoredAssignment)
    (h : assignmentDocOk doc = true) : (assignmentDocToJson doc).isSome = true := by
  unfold assignmentDocOk at h
  unfold assignmentDocToJson
  cases hd : doc.2.due_date with
  | none => rw [hd] at h; simp at h
  | some dms => simp

/-! ### Claims -/

/-- C9: if the store client failed to initialize at startup (`db` falsy), every
one of the four data endpoints returns a 500 server error with the
initialization error body, leaves the store untouched, and emits no broadcast,
regardless of the payload, the environment, or the store read outcome —
no store operation, validation check, or broadcast is attempted. -/
theorem c9_uninitialized_db_fails_fast (env : ServerEnv) (readOk : Bool)
    (astore : List (String × StoredAssignment)) (ustore : List (String × StoredUser))
    (p : AssignmentPayload) (q : UserPayload) :
    postAssignments false env astore p =
      ⟨500, .failure "Database not initialized.", astore, []⟩ ∧
    getAssignments false readOk astore =
      ⟨500, .failure "Database not initialized.", astore, []⟩ ∧
    postUsers false env ustore q =
      ⟨500, .failure "Database not initialized.", ustore, []⟩ ∧
    getUsers false readOk ustore =
      ⟨500, .failure "Database not initialized.", ustore, []⟩ :=
  ⟨rfl, rfl, rfl, rfl⟩

/-- C2: a creation payload with a missing (or falsy) required field is rejected
with a 400 client error; the store is unchanged and no broadcast event is
fired.  For assignments the required fields are `gig_id`, `assignee_id`,
`due_date`, `status`; for user profiles, a non-empty `username`. -/
theorem c2_missing_fields_rejected_without_effects (env : ServerEnv)
    (astore : List (String × StoredAssignment)) (ustore : List (String × StoredUser))
    (p : AssignmentPayload) (q : UserPayload)
    (hp : (intFalsy p.gig_id || intFalsy p.assignee_id ||
           strFalsy p.due_date || strFalsy p.status) = true)
    (hq : strFalsy q.username = true) :
    postAssignments true env astore p =
      ⟨400, .failure "Missing required fields.", astore, []⟩ ∧
    postUsers true env ustore q =
      ⟨400, .failure "Username is a required field.", ustore, []⟩ := by
  constructor
  · simp [postAssignments, hp]
  · simp [postUsers, hq]

theorem c2_witness :
    ((intFalsy (none : Option Int) || intFalsy (some 9) ||
      strFalsy (some "2023-11-14") || strFalsy (some "pending")) = true ∧
     strFalsy (none : Option String) = true) ∧
    (postAssignments true ⟨fun _ => some 1700000000000, 1600000000000, "doc1", true⟩
        [] ⟨none, some 9, some "2023-11-14", some "pending"⟩ =
      ⟨400, .failure "Missing required fields.", [], []⟩ ∧
     postUsers true ⟨fun _ => some 1700000000000, 1600000000000, "doc1", true⟩
        [] ⟨none, none, none⟩ =
      ⟨400, .failure "Username is a required field.", [], []⟩) :=
  ⟨⟨by decide, by decide⟩,
   c2_missing_fields_rejected_without_effects
     ⟨fun _ => some 1700000000000, 1600000000000, "doc1", true⟩ [] []
     ⟨none, some 9, some "2023-11-14", some "pending"⟩ ⟨none, none, none⟩
     (by decide) (by decide)⟩

/-- C6: on receipt of a broadcast event carrying record `r`, a list view in any
state updates the displayed sequence to exactly `r` prepended to it: the
previous sequence survives as an unchanged suffix, every element keeps its
multiplicity (no removal and no de-duplication), and the loading/error state is
untouched (no re-fetch, no re-sort). -/
theorem c6_broadcast_prepends_record {α : Type} [DecidableEq α]
    (st : ListViewState α) (r : α) :
    onBroadcast st r = ⟨r :: st.records, st.loading, st.error⟩ ∧
    st.records.IsSuffix (onBroadcast st r).records ∧
    (∀ x : α, (onBroadcast st r).records.count x =
      st.records.count x + (if x = r then 1 else 0)) := by
  refine ⟨rfl, ⟨[r], rfl⟩, ?_⟩
  intro x
  by_cases hx : x = r <;> simp [onBroadcast, List.count_cons, hx]

/-- C8: the client-side skills derivation splits the raw input on commas and
trims each piece, preserving empty entries and duplicates; in particular
`"go, rust, "` yields exactly `["go", "rust", ""]`, keeping the trailing
empty entry. -/
theorem c8_skills_split_trim :
    (∀ s : String, skillsFromInput s = (jsSplitComma s).map jsTrim) ∧
    skillsFromInput "go, rust, " = ["go", "rust", ""] ∧
    skillsFromInput "go,go" = ["go", "go"] ∧
    skillsFromInput "" = [""] :=
  ⟨fun _ => rfl, by decide, by decide, by decide⟩

/-- C7: an assignment payload whose required fields are all present and
non-falsy but whose `due_date` string does not parse as a date is written to
the store (with the Invalid Date), and the handler only fails afterwards, when
serializing that date for the response: it returns a 500 server error and
emits no broadcast, yet the store has grown by one record — the error path is
not atomic. -/
theorem c7_invalid_due_date_write_then_error (env : ServerEnv)
    (astore : List (String × StoredAssignment)) (g a : Int) (dd st : String)
    (hg : g ≠ 0) (ha : a ≠ 0) (hdd : dd ≠ "") (hst : st ≠ "")
    (hparse : env.parseDate dd = none) (hok : env.addOk = true) :
    postAssignments true env astore ⟨some g, some a, some dd, some st⟩ =
      ⟨500, .failure "Internal server error.",
       astore ++ [(env.newId, ⟨g, a, none, st, env.now⟩)], []⟩ ∧
    (postAssignments true env astore ⟨some g, some a, some dd, some st⟩).store ≠
      astore := by
  have heq : postAssignments true env astore ⟨some g, some a, some dd, some st⟩ =
      ⟨500, .failure "Internal server error.",
       astore ++ [(env.newId, ⟨g, a, none, st, env.now⟩)], []⟩ := by
    simp [postAssignments, intFalsy, strFalsy, hg, ha, hdd, hst, hparse, hok]
  refine ⟨heq, ?_⟩
  rw [heq]
  intro hcontra
  have := congrArg List.length hcontra
  simp at this

theorem c7_witness :
    ((7 : Int) ≠ 0 ∧ (9 : Int) ≠ 0 ∧ "not-a-date" ≠ "" ∧ "pending" ≠ "" ∧
     (⟨fun _ => none, 1600000000000, "doc1", true⟩ : ServerEnv).parseDate
       "not-a-date" = none) ∧
    (postAssignments true ⟨fun _ => none, 1600000000000, "doc1", true⟩ []
        ⟨some 7, some 9, some "not-a-date", some "pending"⟩ =
      ⟨500, .failure "Internal server error.",
       [("doc1", ⟨7, 9, none, "pending", 1600000000000⟩)], []⟩ ∧
     (postAssignments true ⟨fun _ => none, 1600000000000, "doc1", true⟩ []
        ⟨some 7, some 9, some "not-a-date", some "pending"⟩).store ≠ []) :=
  ⟨⟨by decide, by decide, by decide, by decide, rfl⟩,
   c7_invalid_due_date_write_then_error
     ⟨fun _ => none, 1600000000000, "doc1", true⟩ [] 7 9 "not-a-date" "pending"
     (by decide) (by decide) (by decide) (by decide) rfl rfl⟩

/-- C1: broadcast happens only after a successful store write.  If the store
write fails on a valid creation request (assignment or user profile), the
handler returns a 500 server error, emits no broadcast event, and leaves the
store unchanged; and in every reachable outcome of either creation handler,
every broadcast event carries a record whose document is present in the store
the handler leaves behind — nothing is published that was not first written. -/
theorem c1_broadcast_only_after_successful_write (env : ServerEnv)
    (astore : List (String × StoredAssignment)) (ustore : List (String × StoredUser))
    (g a : Int) (dd st uname : String) (obio : Option String)
    (oskills : Option (List String))
    (hg : g ≠ 0) (ha : a ≠ 0) (hdd : dd ≠ "") (hst : st ≠ "") (hu : uname ≠ "")
    (hfail : env.addOk = false) :
    postAssignments true env astore ⟨some g, some a, some dd, some st⟩ =
      ⟨500, .failure "Internal server error.", astore, []⟩ ∧
    postUsers true env ustore ⟨some uname, obio, oskills⟩ =
      ⟨500, .failure "Internal server error.", ustore, []⟩ ∧
    (∀ (dbi : Bool) (env' : ServerEnv) (store' : List (String × StoredAssignment))
       (p' : AssignmentPayload) (e : AssignmentRecord),
       e ∈ (postAssignments dbi env' store' p').events →
       ∃ doc, doc ∈ (postAssignments dbi env' store' p').store ∧
         assignmentDocToJson doc = some e) ∧
    (∀ (dbi : Bool) (env' : ServerEnv) (store' : List (String × StoredUser))
       (q' : UserPayload) (e : UserRecord),
       e ∈ (postUsers dbi env' store' q').events →
       ∃ doc, doc ∈ (postUsers dbi env' store' q').store ∧ userDocToJson doc = e) := by
  refine ⟨?_, ?_, ?_, ?_⟩
  · simp [postAssignments, intFalsy, strFalsy, hg, ha, hdd, hst, hfail]
  · simp [postUsers, strFalsy, hu, hfail]
  · intro dbi env' store' p' e he
    exact postAssignments_events_durable dbi env' store' p' he
  · intro dbi env' store' q' e he
    exact postUsers_events_durable dbi env' store' q' he

theorem c1_witness :
    ((7 : Int) ≠ 0 ∧ (9 : Int) ≠ 0 ∧ "2023-11-14" ≠ "" ∧ "pending" ≠ "" ∧
     "ana" ≠ "" ∧
     (⟨fun _ => some 1700000000000, 1600000000000, "doc1", false⟩ : ServerEnv).addOk =
       false) ∧
    (postAssignments true
        ⟨fun _ => some 1700000000000, 1600000000000, "doc1", false⟩ []
        ⟨some 7, some 9, some "2023-11-14", some "pending"⟩ =
      ⟨500, .failure "Internal server error.", [], []⟩ ∧
     postUsers true ⟨fun _ => some 1700000000000, 1600000000000, "doc1", false⟩ []
        ⟨some "ana", none, some ["go", "rust"]⟩ =
      ⟨500, .failure "Internal server error.", [], []⟩ ∧
     (∀ (dbi : Bool) (env' : ServerEnv) (store' : List (String × StoredAssignment))
        (p' : AssignmentPayload) (e : AssignmentRecord),
        e ∈ (postAssignments dbi env' store' p').events →
        ∃ doc, doc ∈ (postAssignments dbi env' store' p').store ∧
          assignmentDocToJson doc = some e) ∧
     (∀ (dbi : Bool) (env' : ServerEnv) (store' : List (String × StoredUser))
        (q' : UserPayload) (e : UserRecord),
        e ∈ (postUsers dbi env' store' q').events →
        ∃ doc, doc ∈ (postUsers dbi env' store' q').store ∧ userDocToJson doc = e)) :=
  ⟨⟨by decide, by decide, by decide, by decide, by decide, rfl⟩,
   c1_broadcast_only_after_successful_write
     ⟨fun _ => some 1700000000000, 1600000000000, "doc1", false⟩ [] []
     7 9 "2023-11-14" "pending" "ana" none (some ["go", "rust"])
     (by decide) (by decide) (by decide) (by decide) (by decide) rfl⟩

/-- C3: a valid creation payload produces a 201 response whose body carries the
canonical record — the submitted fields plus the store-assigned `id` and the
server-assigned `created_at`, with `created_at` (and, for assignments,
`due_date`) rendered by `toISOString` as ISO-8601 strings — and exactly that
record is the one published on the broadcast topic. -/
theorem c3_create_returns_canonical_record (env : ServerEnv)
    (astore : List (String × StoredAssignment)) (ustore : List (String × StoredUser))
    (g a : Int) (dd st uname : String) (obio : Option String)
    (oskills : Option (List String)) (dms : Int)
    (hg : g ≠ 0) (ha : a ≠ 0) (hdd : dd ≠ "") (hst : st ≠ "") (hu : uname ≠ "")
    (hparse : env.parseDate dd = some dms) (hok : env.addOk = true) :
    postAssignments true env astore ⟨some g, some a, some dd, some st⟩ =
      ⟨201,
       .created "Assignment added successfully"
         ⟨env.newId, g, a, toISOString dms, st, toISOString env.now⟩,
       astore ++ [(env.newId, ⟨g, a, some dms, st, env.now⟩)],
       [⟨env.newId, g, a, toISOString dms, st, toISOString env.now⟩]⟩ ∧
    postUsers true env ustore ⟨some uname, obio, oskills⟩ =
      ⟨201,
       .created "User profile created successfully"
         ⟨env.newId, uname, obio.getD "", oskills.getD [], toISOString env.now⟩,
       ustore ++ [(env.newId, ⟨uname, obio.getD "", oskills.getD [], env.now⟩)],
       [⟨env.newId, uname, obio.getD "", oskills.getD [], toISOString env.now⟩]⟩ ∧
    isIso8601 (toISOString dms) = true ∧
    isIso8601 (toISOString env.now) = true :=
  ⟨postAssignments_success env astore g a dd st dms hg ha hdd hst hparse hok,
   postUsers_success env ustore uname obio oskills hu hok,
   isIso8601_toISOString dms,
   isIso8601_toISOString env.now⟩

theorem c3_witness :
    ((7 : Int) ≠ 0 ∧ (9 : Int) ≠ 0 ∧ "2023-11-14" ≠ "" ∧ "pending" ≠ "" ∧
     "ana" ≠ "" ∧
     (⟨fun _ => some 1700000000000, 1600000000000, "doc1", true⟩ : ServerEnv).parseDate
       "2023-11-14" = some 1700000000000) ∧
    (postAssignments true ⟨fun _ => some 1700000000000, 1600000000000, "doc1", true⟩
        [] ⟨some 7, some 9, some "2023-11-14", some "pending"⟩ =
      ⟨201,
       .created "Assignment added successfully"
         ⟨"doc1", 7, 9, toISOString 1700000000000, "pending",
          toISOString 1600000000000⟩,
       [("doc1", ⟨7, 9, some 1700000000000, "pending", 1600000000000⟩)],
       [⟨"doc1", 7, 9, toISOString 1700000000000, "pending",
         toISOString 1600000000000⟩]⟩ ∧
     postUsers true ⟨fun _ => some 1700000000000, 1600000000000, "doc1", true⟩ []
        ⟨some "ana", none, some ["go", "rust"]⟩ =
      ⟨201,
       .created "User profile created successfully"
         ⟨"doc1", "ana", "", ["go", "rust"], toISOString 1600000000000⟩,
       [("doc1", ⟨"ana", "", ["go", "rust"], 1600000000000⟩)],
       [⟨"doc1", "ana", "", ["go", "rust"], toISOString 1600000000000⟩]⟩ ∧
     isIso8601 (toISOString 1700000000000) = true ∧
     isIso8601 (toISOString 1600000000000) = true) :=
  ⟨⟨by decide, by decide, by decide, by decide, by decide, rfl⟩,
   c3_create_returns_canonical_record
     ⟨fun _ => some 1700000000000, 1600000000000, "doc1", true⟩ [] []
     7 9 "2023-11-14" "pending" "ana" none (some ["go", "rust"]) 1700000000000
     (by decide) (by decide) (by decide) (by decide) (by decide) rfl rfl⟩

/-- C5: with an operational store, `list` returns a 200 response containing all
records of the requested entity type (a permutation of the store's collection)
ordered by `created_at` descending: any record placed before another has a
`created_at` at least as large. -/
theorem c5_list_sorted_by_created_at_desc
    (astore : List (String × StoredAssignment)) (ustore : List (String × StoredUser))
    (hvalid : ∀ doc ∈ astore, assignmentDocOk doc = true) :
    (∃ sorted body,
      getAssignments true true astore = ⟨200, .records body, astore, []⟩ ∧
      mapOpt assignmentDocToJson sorted = some body ∧
      sorted.Perm astore ∧
      sorted.Pairwise (fun x y => y.2.created_at ≤ x.2.created_at)) ∧
    (∃ usorted : List (String × StoredUser),
      getUsers true true ustore =
        ⟨200, .records (usorted.map userDocToJson), ustore, []⟩ ∧
      usorted.Perm ustore ∧
      usorted.Pairwise (fun x y => y.2.created_at ≤ x.2.created_at)) := by
  constructor
  · set sorted := astore.mergeSort createdDescA with hs
    have hperm : sorted.Perm astore := List.mergeSort_perm astore createdDescA
    have hvalid2 : ∀ doc ∈ sorted, (assignmentDocToJson doc).isSome = true := by
      intro d hd
      exact assignmentDocToJson_isSome d (hvalid d (hperm.mem_iff.mp hd))
    obtain ⟨body, hbody⟩ := mapOpt_eq_some_of_forall sorted hvalid2
    refine ⟨sorted, body, ?_, hbody, hperm, ?_⟩
    · simp [getAssignments, ← hs, hbody]
    · exact (List.sorted_mergeSort createdDescA_trans createdDescA_total astore).imp
        (fun h => by simpa [createdDescA] using h)
  · set usorted := ustore.mergeSort createdDescU with hus
    have huperm : usorted.Perm ustore := List.mergeSort_perm ustore createdDescU
    refine ⟨usorted, ?_, huperm, ?_⟩
    · simp [getUsers, ← hus]
    · exact (List.sorted_mergeSort createdDescU_trans createdDescU_total ustore).imp
        (fun h => by simpa [createdDescU] using h)

theorem c5_witness :
    (∀ doc ∈ [("a", (⟨1, 2, some 5, "s", 10⟩ : StoredAssignment)),
              ("b", ⟨3, 4, some 6, "t", 30⟩)], assignmentDocOk doc = true) ∧
    ((∃ sorted body,
      getAssignments true true
          [("a", (⟨1, 2, some 5, "s", 10⟩ : StoredAssignment)),
           ("b", ⟨3, 4, some 6, "t", 30⟩)] =
        ⟨200, .records body,
         [("a", ⟨1, 2, some 5, "s", 10⟩), ("b", ⟨3, 4, some 6, "t", 30⟩)], []⟩ ∧
      mapOpt assignmentDocToJson sorted = some body ∧
      sorted.Perm [("a", ⟨1, 2, some 5, "s", 10⟩), ("b", ⟨3, 4, some 6, "t", 30⟩)] ∧
      sorted.Pairwise (fun x y => y.2.created_at ≤ x.2.created_at)) ∧
    (∃ usorted : List (String × StoredUser),
      getUsers true true [("u", (⟨"ana", "", ["go"], 20⟩ : StoredUser))] =
        ⟨200, .records (usorted.map userDocToJson),
         [("u", ⟨"ana", "", ["go"], 20⟩)], []⟩ ∧
      usorted.Perm [("u", ⟨"ana", "", ["go"], 20⟩)] ∧
      usorted.Pairwise (fun x y => y.2.created_at ≤ x.2.created_at))) :=
  ⟨by decide,
   c5_list_sorted_by_created_at_desc
     [("a", ⟨1, 2, some 5, "s", 10⟩), ("b", ⟨3, 4, some 6, "t", 30⟩)]
     [("u", ⟨"ana", "", ["go"], 20⟩)] (by decide)⟩

/-- C4: the record published on the broadcast topic by a successful create is
exactly the element the list endpoint later returns for that record: both
paths serialize the stored timestamps with the same `toISOString`, so the
broadcast payload is a member of the 200 list response computed over the
post-create store. -/
theorem c4_broadcast_matches_list_element (env : ServerEnv)
    (astore : List (String × StoredAssignment)) (ustore : List (String × StoredUser))
    (g a : Int) (dd st uname : String) (obio : Option String)
    (oskills : Option (List String)) (dms : Int)
    (hg : g ≠ 0) (ha : a ≠ 0) (hdd : dd ≠ "") (hst : st ≠ "") (hu : uname ≠ "")
    (hparse : env.parseDate dd = some dms) (hok : env.addOk = true)
    (hvalid : ∀ doc ∈ astore, assignmentDocOk doc = true) :
    (postAssignments true env astore ⟨some g, some a, some dd, some st⟩).events =
      [⟨env.newId, g, a, toISOString dms, st, toISOString env.now⟩] ∧
    (∃ body,
      getAssignments true true
          (postAssignments true env astore ⟨some g, some a, some dd, some st⟩).store =
        ⟨200, .records body,
         (postAssignments true env astore ⟨some g, some a, some dd, some st⟩).store,
         []⟩ ∧
      (⟨env.newId, g, a, toISOString dms, st, toISOString env.now⟩ :
        AssignmentRecord) ∈ body) ∧
    (postUsers true env ustore ⟨some uname, obio, oskills⟩).events =
      [⟨env.newId, uname, obio.getD "", oskills.getD [], toISOString env.now⟩] ∧
    (∃ ubody,
      getUsers true true (postUsers true env ustore ⟨some uname, obio, oskills⟩).store =
        ⟨200, .records ubody,
         (postUsers true env ustore ⟨some uname, obio, oskills⟩).store, []⟩ ∧
      (⟨env.newId, uname, obio.getD "", oskills.getD [], toISOString env.now⟩ :
        UserRecord) ∈ ubody) := by
  have hpost := postAssignments_success env astore g a dd st dms hg ha hdd hst hparse hok
  have hupost := postUsers_success env ustore uname obio oskills hu hok
  have hstore : (postAssignments true env astore ⟨some g, some a, some dd, some st⟩).store =
      astore ++ [(env.newId, ⟨g, a, some dms, st, env.now⟩)] := by rw [hpost]
  have hustore : (postUsers true env ustore ⟨some uname, obio, oskills⟩).store =
      ustore ++ [(env.newId, ⟨uname, obio.getD "", oskills.getD [], env.now⟩)] := by
    rw [hupost]
  have hvalid2 : ∀ doc ∈ astore ++ [(env.newId,
      (⟨g, a, some dms, st, env.now⟩ : StoredAssignment))], assignmentDocOk doc = true := by
    intro d hd
    rcases List.mem_append.mp hd with h | h
    · exact hvalid d h
    · simp at h
      subst h
      rfl
  set sorted := (astore ++ [(env.newId,
    (⟨g, a, some dms, st, env.now⟩ : StoredAssignment))]).mergeSort createdDescA with hsdef
  have hperm := List.mergeSort_perm
    (astore ++ [(env.newId, (⟨g, a, some dms, st, env.now⟩ : StoredAssignment))])
    createdDescA
  have hall : ∀ d ∈ sorted, (assignmentDocToJson d).isSome = true := fun d hd =>
    assignmentDocToJson_isSome d (hvalid2 d (hperm.mem_iff.mp hd))
  obtain ⟨body, hbody⟩ := mapOpt_eq_some_of_forall sorted hall
  have hmemd : (env.newId, (⟨g, a, some dms, st, env.now⟩ : StoredAssignment)) ∈ sorted :=
    List.mem_mergeSort.mpr (List.mem_append_right _ (by simp))
  have hrecmem : (⟨env.newId, g, a, toISOString dms, st, toISOString env.now⟩ :
      AssignmentRecord) ∈ body :=
    mapOpt_mem sorted hbody hmemd rfl
  refine ⟨by rw [hpost], ⟨body, ?_, hrecmem⟩, by rw [hupost], ?_⟩
  · rw [hstore]
    simp [getAssignments, ← hsdef, hbody]
  · set usorted := (ustore ++ [(env.newId,
      (⟨uname, obio.getD "", oskills.getD [], env.now⟩ : StoredUser))]).mergeSort
      createdDescU with husdef
    refine ⟨usorted.map userDocToJson, ?_, ?_⟩
    · rw [hustore]
      simp [getUsers, ← husdef]
    · exact List.mem_map_of_mem _
        (List.mem_mergeSort.mpr (List.mem_append_right _ (List.mem_singleton_self _)))

theorem c4_witness :
    ((7 : Int) ≠ 0 ∧ (9 : Int) ≠ 0 ∧ "2023-11-14" ≠ "" ∧ "pending" ≠ "" ∧
     "ana" ≠ "" ∧
     (⟨fun _ => some 1700000000000, 1600000000000, "doc1", true⟩ : ServerEnv).parseDate
       "2023-11-14" = some 1700000000000 ∧
     (∀ doc ∈ ([] : List (String × StoredAssignment)), assignmentDocOk doc = true)) ∧
    ((postAssignments true ⟨fun _ => some 1700000000000, 1600000000000, "doc1", true⟩
        [] ⟨some 7, some 9, some "2023-11-14", some "pending"⟩).events =
      [⟨"doc1", 7, 9, toISOString 1700000000000, "pending",
        toISOString 1600000000000⟩] ∧
     (∃ body,
       getAssignments true true
           (postAssignments true
             ⟨fun _ => some 1700000000000, 1600000000000, "doc1", true⟩ []
             ⟨some 7, some 9, some "2023-11-14", some "pending"⟩).store =
         ⟨200, .records body,
          (postAssignments true
            ⟨fun _ => some 1700000000000, 1600000000000, "doc1", true⟩ []
            ⟨some 7, some 9, some "2023-11-14", some "pending"⟩).store, []⟩ ∧
       (⟨"doc1", 7, 9, toISOString 1700000000000, "pending",
         toISOString 1600000000000⟩ : AssignmentRecord) ∈ body) ∧
     (postUsers true ⟨fun _ => some 1700000000000, 1600000000000, "doc1", true⟩ []
        ⟨some "ana", none, some ["go", "rust"]⟩).events =
      [⟨"doc1", "ana", "", ["go", "rust"], toISOString 1600000000000⟩] ∧
     (∃ ubody,
       getUsers true true
           (postUsers true ⟨fun _ => some 1700000000000, 1600000000000, "doc1", true⟩
             [] ⟨some "ana", none, some ["go", "rust"]⟩).store =
         ⟨200, .records ubody,
          (postUsers true ⟨fun _ => some 1700000000000, 1600000000000, "doc1", true⟩
            [] ⟨some "ana", none, some ["go", "rust"]⟩).store, []⟩ ∧
       (⟨"doc1", "ana", "", ["go", "rust"],
         toISOString 1600000000000⟩ : UserRecord) ∈ ubody)) :=
  ⟨⟨by decide, by decide, by decide, by decide, by decide, rfl, by decide⟩,
   c4_broadcast_matches_list_element
     ⟨fun _ => some 1700000000000, 1600000000000, "doc1", true⟩ [] []
     7 9 "2023-11-14" "pending" "ana" none (some ["go", "rust"]) 1700000000000
     (by decide) (by decide) (by decide) (by decide) (by decide) rfl rfl
     (by decide)⟩

/-- C10 counterexample: submitting the assignment form while a success
indicator from a previous submission is still shown, and receiving a server
error, leaves every input field unchanged and sets the error message — but it
also clears the success indicator, so the error message is not the only piece
of state that changes on failure, contrary to the claim. -/
theorem c10_counterexample :
    (assignmentFormSubmit
        ⟨"1", "2", "2023-11-14", "in_progress", false,
         some "Assignment created successfully!", none⟩ (.httpError none)).gigId = "1" ∧
    (assignmentFormSubmit
        ⟨"1", "2", "2023-11-14", "in_progress", false,
         some "Assignment created successfully!", none⟩
        (.httpError none)).assigneeId = "2" ∧
    (assignmentFormSubmit
        ⟨"1", "2", "2023-11-14", "in_progress", false,
         some "Assignment created successfully!", none⟩
        (.httpError none)).dueDate = "2023-11-14" ∧
    (assignmentFormSubmit
        ⟨"1", "2", "2023-11-14", "in_progress", false,
         some "Assignment created successfully!", none⟩
        (.httpError none)).status = "in_progress" ∧
    (assignmentFormSubmit
        ⟨"1", "2", "2023-11-14", "in_progress", false,
         some "Assignment created successfully!", none⟩
        (.httpError none)).error = some "Failed to add assignment." ∧
    (assignmentFormSubmit
        ⟨"1", "2", "2023-11-14", "in_progress", false,
         some "Assignment created successfully!", none⟩
        (.httpError none)).successMessage = none ∧
    ¬ (assignmentFormSubmit
        ⟨"1", "2", "2023-11-14", "in_progress", false,
         some "Assignment created successfully!", none⟩
        (.httpError none)).successMessage =
      (⟨"1", "2", "2023-11-14", "in_progress", false,
        some "Assignment created successfully!", none⟩ :
        AssignmentFormState).successMessage := by
  decide

/-- C10 (amended): a successful submission resets every input field to its
default value, shows the success indicator and clears any error; on any
failure (client-side validation, server error, or network error) the input
field values are left unchanged, the error message is set — from the server's
error payload when available, otherwise a generic message — and any prior
success indicator is cleared. -/
theorem c10_form_submit_outcomes (ast : AssignmentFormState) (ust : UserFormState)
    (me : Option String) (nm : String)
    (ha1 : ast.gigId ≠ "") (ha2 : ast.assigneeId ≠ "") (ha3 : ast.dueDate ≠ "")
    (ha4 : ast.status ≠ "") (hu1 : ust.username ≠ "") :
    assignmentFormSubmit ast .ok =
      ⟨"", "", "", "in_progress", false,
       some "Assignment created successfully!", none⟩ ∧
    assignmentFormSubmit ast (.httpError me) =
      { ast with loading := false, successMessage := none, error := some (me.getD "Failed to add assignment.") } ∧
    assignmentFormSubmit ast (.networkError nm) =
      { ast with loading := false, successMessage := none, error := some nm } ∧
    (∀ (bst : AssignmentFormState) (r : FetchOutcome),
      bst.gigId = "" ∨ bst.assigneeId = "" ∨ bst.dueDate = "" ∨ bst.status = "" →
      assignmentFormSubmit bst r =
        { bst with loading := false, successMessage := none, error := some "Please fill in all fields." }) ∧
    userFormSubmit ust .ok =
      ⟨"", "", "", false, some "User profile created successfully!", none⟩ ∧
    userFormSubmit ust (.httpError me) =
      { ust with loading := false, successMessage := none, error := some (me.getD "Failed to create user profile.") } ∧
    userFormSubmit ust (.networkError nm) =
      { ust with loading := false, successMessage := none, error := some nm } ∧
    (∀ (bst : UserFormState) (r : FetchOutcome), bst.username = "" →
      userFormSubmit bst r =
        { bst with loading := false, successMessage := none, error := some "Username is required." }) := by
  obtain ⟨ag, aa, ad, asx, al, asm, aer⟩ := ast
  obtain ⟨uu, ub, usx, ul, usm, uer⟩ := ust
  refine ⟨?_, ?_, ?_, ?_, ?_, ?_, ?_, ?_⟩
  · simp [assignmentFormSubmit, ha1, ha2, ha3, ha4]
  · simp [assignmentFormSubmit, ha1, ha2, ha3, ha4]
  · simp [assignmentFormSubmit, ha1, ha2, ha3, ha4]
  · intro bst r hb
    obtain ⟨bg, ba, bd, bs, bl, bsm, ber⟩ := bst
    rcases hb with hb | hb | hb | hb
    · have hb2 : bg = "" := hb
      subst hb2
      simp [assignmentFormSubmit]
    · have hb2 : ba = "" := hb
      subst hb2
      simp [assignmentFormSubmit]
    · have hb2 : bd = "" := hb
      subst hb2
      simp [assignmentFormSubmit]
    · have hb2 : bs = "" := hb
      subst hb2
      simp [assignmentFormSubmit]
  · simp [userFormSubmit, hu1]
  · simp [userFormSubmit, hu1]
  · simp [userFormSubmit, hu1]
  · intro bst r hb
    obtain ⟨bu, bb, bsk, bl, bsm, ber⟩ := bst
    have hb2 : bu = "" := hb
    subst hb2
    simp [userFormSubmit]

theorem c10_witness :
    ((⟨"1", "2", "2023-11-14", "in_progress", false, none,
       some "old error"⟩ : AssignmentFormState).gigId ≠ "" ∧
     (⟨"ana", "bio", "go, rust", false, none, none⟩ : UserFormState).username ≠ "") ∧
    (assignmentFormSubmit
        ⟨"1", "2", "2023-11-14", "in_progress", false, none, some "old error"⟩ .ok =
      ⟨"", "", "", "in_progress", false,
       some "Assignment created successfully!", none⟩ ∧
     assignmentFormSubmit
        ⟨"1", "2", "2023-11-14", "in_progress", false, none, some "old error"⟩
        (.httpError (some "boom")) =
      { (⟨"1", "2", "2023-11-14", "in_progress", false, none, some "old error"⟩ :
          AssignmentFormState) with
        loading := false, successMessage := none, error := some ((some "boom").getD "Failed to add assignment.") } ∧
     assignmentFormSubmit
        ⟨"1", "2", "2023-11-14", "in_progress", false, none, some "old error"⟩
        (.networkError "network down") =
      { (⟨"1", "2", "2023-11-14", "in_progress", false, none, some "old error"⟩ :
          AssignmentFormState) with
        loading := false, successMessage := none, error := some "network down" } ∧
     (∀ (bst : AssignmentFormState) (r : FetchOutcome),
       bst.gigId = "" ∨ bst.assigneeId = "" ∨ bst.dueDate = "" ∨ bst.status = "" →
       assignmentFormSubmit bst r =
         { bst with loading := false, successMessage := none, error := some "Please fill in all fields." }) ∧
     userFormSubmit ⟨"ana", "bio", "go, rust", false, none, none⟩ .ok =
       ⟨"", "", "", false, some "User profile created successfully!", none⟩ ∧
     userFormSubmit ⟨"ana", "bio", "go, rust", false, none, none⟩
        (.httpError (some "boom")) =
      { (⟨"ana", "bio", "go, rust", false, none, none⟩ : UserFormState) with
        loading := false, successMessage := none, error := some ((some "boom").getD "Failed to create user profile.") } ∧
     userFormSubmit ⟨"ana", "bio", "go, rust", false, none, none⟩
        (.networkError "network down") =
      { (⟨"ana", "bio", "go, rust", false, none, none⟩ : UserFormState) with
        loading := false, successMessage := none, error := some "network down" } ∧
     (∀ (bst : UserFormState) (r : FetchOutcome), bst.username = "" →
       userFormSubmit bst r =
         { bst with loading := false, successMessage := none, error := some "Username is required." })) :=
  ⟨⟨by decide, by decide⟩,
   c10_form_submit_outcomes
     ⟨"1", "2", "2023-11-14", "in_progress", false, none, some "old error"⟩
     ⟨"ana", "bio", "go, rust", false, none, none⟩ (some "boom") "network down"
     (by decide) (by decide) (by decide) (by decide) (by decide)⟩
